import Mathlib

/-!
Shallow embedding of `src/agentic-app/src/utils/catalog.ts`, the
catalog-enrichment template engine: per-platform title / bullet /
description / keyword templates, the listing composer `generateListing`,
and the batch enricher `enrichCatalog`.

JavaScript conventions are made explicit:
* a row is a string-keyed, string-valued object; property access on an
  absent key yields `undefined`, which every use site immediately funnels
  through `||` or a truthiness test, so we model access as a total getter
  returning `""` for absent keys (`rget`);
* `a || b` on strings is `jsOr` (the empty string is the only falsy string);
* `s.slice(0, n)` is `jsSlice` (a hard character-count cut);
* `s.trim()` is `jsTrim` (strip whitespace from both ends);
* `s.split(regexCharClass)` is `jsSplit` (single-character delimiters,
  consecutive delimiters produce empty fragments, `""` splits to `[""]`);
* `array.join(sep)` is `jsJoin`.
-/

namespace Catalog

/-- A spreadsheet row: string keys to string values, as parsed from CSV.
Modelled as an association list; lookup takes the first matching key. -/
abbrev Row := List (String × String)

/-- The four marketplaces of `ListingPlatform` in `catalog.ts`. -/
inductive ListingPlatform where
  | Amazon
  | Flipkart
  | Meesho
  | Myntra
deriving DecidableEq, Repr

/-- First-match association-list lookup, the observable semantics of
JavaScript property access on a plain object. -/
def rlookup : Row → String → Option String
  | [], _ => none
  | (k', v) :: rest, k => if k' = k then some v else rlookup rest k

/-- `row.key` as every use site in `catalog.ts` consumes it: an absent key
behaves exactly like the empty string (both are falsy for `||` and `?:`). -/
def rget (row : Row) (k : String) : String := (rlookup row k).getD ""

/-- The row as seen by the templates: a total getter. -/
abbrev Getter := String → String

/-- JavaScript `a || b` restricted to strings: `""` is the only falsy string. -/
def jsOr (a b : String) : String := if a = "" then b else a

/-- JavaScript `s.slice(0, n)`: keep the first `n` characters. -/
def jsSlice (s : String) (n : Nat) : String := String.mk (s.data.take n)

/-- JavaScript `s.trim()`: strip whitespace from both ends. -/
def jsTrim (s : String) : String :=
  String.mk (((s.data.dropWhile Char.isWhitespace).reverse.dropWhile
    Char.isWhitespace).reverse)

/-- Auxiliary splitter: walk the characters, cutting at every delimiter;
`acc` holds the current fragment reversed. -/
def jsSplitAux (p : Char → Bool) : List Char → List Char → List String
  | [], acc => [String.mk acc.reverse]
  | c :: cs, acc =>
      if p c then String.mk acc.reverse :: jsSplitAux p cs []
      else jsSplitAux p cs (c :: acc)

/-- JavaScript `s.split(/[...]/)` for a single-character class: consecutive
delimiters yield empty fragments and `""` splits to `[""]`. -/
def jsSplit (s : String) (p : Char → Bool) : List String :=
  jsSplitAux p s.data []

/-- JavaScript `array.join(sep)`. -/
def jsJoin (sep : String) : List String → String
  | [] => ""
  | [x] => x
  | x :: xs => x ++ sep ++ jsJoin sep xs

/-- The Amazon title before truncation: the four parts of
`titleTemplates.Amazon`, filtered by truthiness (the source filters BEFORE
trimming), then trimmed, then joined with `" | "`. -/
def amazonTitleJoined (row : Getter) : String :=
  let brand := jsOr (row "brand") (jsOr (row "Brand") (jsOr (row "vendor") "Premium"))
  let name := jsOr (row "product_name") (jsOr (row "title") (jsOr (row "Name") "Product"))
  let keyTrait := jsOr (row "key_feature") (jsOr (row "feature")
    (jsOr (row "Features") (jsOr (row "material") "")))
  let size := jsOr (row "size") (jsOr (row "Size") "")
  jsJoin " | " (([brand, name, keyTrait, size].filter (fun s => s != "")).map jsTrim)

/-- `titleTemplates` of `catalog.ts`. -/
def titleTemplates (platform : ListingPlatform) (row : Getter) : String :=
  match platform with
  | .Amazon => jsSlice (amazonTitleJoined row) 180
  | .Flipkart =>
      let base := jsOr (row "product_name") (jsOr (row "title") "Exclusive Pick")
      let qualifier := jsOr (row "style") (jsOr (row "pattern") (jsOr (row "gender") ""))
      jsSlice (jsTrim (base ++ " " ++ qualifier)) 100
  | .Meesho =>
      let base := jsOr (row "product_name") (jsOr (row "title") "Trendy Look")
      let category := jsOr (row "category") (jsOr (row "segment") "Best Seller")
      jsSlice (base ++ " - " ++ category) 120
  | .Myntra =>
      let brand := jsOr (row "brand") (jsOr (row "Brand") "Signature")
      let base := jsOr (row "product_name") (jsOr (row "title") "Collection")
      jsSlice (brand ++ " " ++ base) 80

/-- The delimiter class `/[|,•\n]/` used by the Amazon and Meesho bullet
templates. -/
def featureDelim (c : Char) : Bool := c == '|' || c == ',' || c == '•' || c == '\n'

/-- `bulletTemplates` of `catalog.ts`. -/
def bulletTemplates (platform : ListingPlatform) (row : Getter) : List String :=
  match platform with
  | .Amazon =>
      let features := ((jsSplit (jsOr (row "features") (jsOr (row "Features") ""))
        featureDelim).map jsTrim).filter (fun s => s != "")
      let material := if row "material" != "" then "Crafted from " ++ row "material" ++ "." else ""
      let usage := if row "usage" != "" then "Ideal for " ++ row "usage" ++ "." else ""
      (([material, usage] ++ features).filter (fun s => s != "")).take 5
  | .Flipkart =>
      let usp := jsOr (row "usp") (jsOr (row "UniqueSellingPoint") (jsOr (row "description") ""))
      (((jsSplit usp (fun c => c == '.' || c == '|')).map jsTrim).filter
        (fun part => part.length > 3)).take 5
  | .Meesho =>
      let highlight := jsOr (row "highlight") (jsOr (row "Highlights") (jsOr (row "features") ""))
      if highlight = "" then ["Trusted quality", "Curated for your boutique", "Ships fast"]
      else (((jsSplit highlight featureDelim).map jsTrim).filter (fun s => s != "")).take 4
  | .Myntra =>
      let styleTip := jsOr (row "style_tip") (jsOr (row "Styling") "")
      let care := jsOr (row "care") (jsOr (row "care_instructions") "")
      (([styleTip, care]).filter (fun s => s != "")).take 3

/-- `descriptionTemplates` of `catalog.ts`. -/
def descriptionTemplates (platform : ListingPlatform) (row : Getter) : String :=
  match platform with
  | .Amazon =>
      let name := jsOr (row "product_name") (jsOr (row "title") "this product")
      let category := jsOr (row "category") (jsOr (row "ProductType") "premium item")
      let tone := jsOr (row "tone") "professional"
      name ++ " delivers a " ++ tone ++ " experience in the " ++ category ++
        " category. Designed to maximise conversion with compelling features and customer-centric benefits."
  | .Flipkart =>
      let origin := jsOr (row "country_of_origin") (jsOr (row "origin") "India")
      "Handpicked for Flipkart customers. Crafted in " ++ origin ++
        " with attention to detailing, ensuring great value for money shoppers."
  | .Meesho =>
      let margin := if jsOr (row "margin") (row "wholesale_price") != "" then
        "Optimised margins for resellers." else ""
      "Perfect addition for boutique sellers. " ++ margin ++
        " Lightweight packaging for reduced logistics cost."
  | .Myntra =>
      let vibe := jsOr (row "theme") (jsOr (row "collection") "seasonal")
      "Part of our " ++ vibe ++
        " drop, aligned with Myntra style guides. Pair it effortlessly with trending wardrobe essentials."

/-- `keywordTemplates` of `catalog.ts`. -/
def keywordTemplates (platform : ListingPlatform) (row : Getter) : List String :=
  match platform with
  | .Amazon =>
      let keywords := jsOr (row "keywords") (jsOr (row "search_terms") "")
      let derived := [row "category", row "sub_category", row "material",
        row "color", row "season"].filter (fun s => s != "")
      (((jsSplit keywords (fun c => c == ',')) ++ derived).map jsTrim).filter
        (fun s => s != "") |>.take 15
  | .Flipkart =>
      [row "category", row "brand", row "gender", row "pattern"].filter (fun s => s != "")
  | .Meesho =>
      [row "category", row "product_name", "Wholesale", "Trending"].filter (fun s => s != "")
  | .Myntra =>
      [row "brand", row "category", row "occasion", row "fit"].filter (fun s => s != "")

/-- The record returned by `generateListing`: eight fields, all strings
(`Platform` stored as the enum, serialized by `platformName`). -/
structure Listing where
  Platform : ListingPlatform
  Title : String
  BulletPoints : String
  Description : String
  SearchKeywords : String
  Price : String
  SKU : String
  HSN : String
deriving DecidableEq, Repr

/-- `generateListing` over the getter view of the row (the templates only
ever read the row through property access). -/
def generateListingF (row : Getter) (platform : ListingPlatform) : Listing :=
  { Platform := platform
    Title := titleTemplates platform row
    BulletPoints := jsJoin " | " (bulletTemplates platform row)
    Description := descriptionTemplates platform row
    SearchKeywords := jsJoin ", " (keywordTemplates platform row)
    Price := jsOr (row "price") (jsOr (row "selling_price") (jsOr (row "mrp") ""))
    SKU := jsOr (row "sku") (jsOr (row "SKU") (jsOr (row "Seller SKU") ""))
    HSN := jsOr (row "hsn") (jsOr (row "hsn_code") "") }

/-- `generateListing` of `catalog.ts`. -/
def generateListing (row : Row) (platform : ListingPlatform) : Listing :=
  generateListingF (rget row) platform

/-- The enum value as the string that lands in the output record. -/
def platformName : ListingPlatform → String
  | .Amazon => "Amazon"
  | .Flipkart => "Flipkart"
  | .Meesho => "Meesho"
  | .Myntra => "Myntra"

/-- The listing record as key-value pairs, in declaration order. -/
def listingPairs (l : Listing) : List (String × String) :=
  [("Platform", platformName l.Platform), ("Title", l.Title),
   ("BulletPoints", l.BulletPoints), ("Description", l.Description),
   ("SearchKeywords", l.SearchKeywords), ("Price", l.Price),
   ("SKU", l.SKU), ("HSN", l.HSN)]

/-- The spread merge `{...row, ...listing}` of `enrichCatalog`, modelled by
its observable lookup semantics: the later spread (the listing) wins on
collision, every other key falls through to the copied row. -/
def spreadMerge (row : Row) (l : Listing) : Row := listingPairs l ++ row

/-- `enrichCatalog` of `catalog.ts`: `rows.flatMap(row =>
platforms.map(platform => ({...row, ...generateListing(row, platform)})))`. -/
def enrichCatalog (rows : List Row) (platforms : List ListingPlatform) : List Row :=
  rows.flatMap (fun row => platforms.map (fun platform =>
    spreadMerge row (generateListing row platform)))

/-- The eight field names computed by `generateListing`. -/
def computedNames : List String :=
  ["Platform", "Title", "BulletPoints", "Description", "SearchKeywords",
   "Price", "SKU", "HSN"]

/-- Remove a key from a row (the row with the key `k` absent). -/
def eraseKey (row : Row) (k : String) : Row := row.filter (fun e => e.1 != k)

/-- The per-platform title ceilings, the literal arguments of `.slice(0, n)`
in `titleTemplates`. -/
def titleLimit : ListingPlatform → Nat
  | .Amazon => 180
  | .Flipkart => 100
  | .Meesho => 120
  | .Myntra => 80

/-- An alias-fallback chain as the spec words it: the first non-empty value
wins, otherwise the default. -/
def firstNonEmpty : List String → String → String
  | [], d => d
  | v :: vs, d => if v ≠ "" then v else firstNonEmpty vs d

/-- Modelled from the spec (claim C3's wording): the Amazon title with each
part trimmed FIRST and only then the non-empty parts joined, so a
whitespace-only part contributes nothing to the join. Compared below with
the source's `titleTemplates .Amazon`, which filters before trimming. -/
def amazonTitleSpecC3 (row : Getter) : String :=
  let brand := firstNonEmpty [row "brand", row "Brand", row "vendor"] "Premium"
  let name := firstNonEmpty [row "product_name", row "title", row "Name"] "Product"
  let keyTrait := firstNonEmpty [row "key_feature", row "feature", row "Features",
    row "material"] ""
  let size := firstNonEmpty [row "size", row "Size"] ""
  jsSlice (jsJoin " | " (([brand, name, keyTrait, size].map jsTrim).filter
    (fun s => s != ""))) 180

/-- The amended reading of claim C3: the parts that are non-empty BEFORE
trimming are kept, each kept part is then trimmed, the results are joined
with the separator, and the join is truncated to 180 characters. -/
def amazonTitleSpecC3Amended (row : Getter) : String :=
  let brand := firstNonEmpty [row "brand", row "Brand", row "vendor"] "Premium"
  let name := firstNonEmpty [row "product_name", row "title", row "Name"] "Product"
  let keyTrait := firstNonEmpty [row "key_feature", row "feature", row "Features",
    row "material"] ""
  let size := firstNonEmpty [row "size", row "Size"] ""
  jsSlice (jsJoin " | " ((([brand, name, keyTrait, size]).filter
    (fun s => s != "")).map jsTrim)) 180

/-! ## Supporting lemmas -/

theorem jsSlice_length (s : String) (n : Nat) :
    (jsSlice s n).length = min n s.length := by
  show (s.data.take n).length = min n s.data.length
  exact List.length_take n s.data

theorem jsSlice_length_le (s : String) (n : Nat) : (jsSlice s n).length ≤ n := by
  rw [jsSlice_length]
  exact Nat.min_le_left _ _

theorem firstNonEmpty_eq_foldr (l : List String) (d : String) :
    firstNonEmpty l d = l.foldr jsOr d := by
  induction l with
  | nil => rfl
  | cons v vs ih =>
      by_cases h : v = "" <;> simp [firstNonEmpty, jsOr, h, ih]

theorem rlookup_eraseKey_self (row : Row) (k : String) :
    rlookup (eraseKey row k) k = none := by
  induction row with
  | nil => rfl
  | cons e rest ih =>
      obtain ⟨a, b⟩ := e
      by_cases h : a = k
      · simpa [eraseKey, List.filter_cons, h] using ih
      · simpa [eraseKey, List.filter_cons, h, rlookup] using ih

theorem rlookup_eraseKey_ne (row : Row) (k k' : String) (h : k' ≠ k) :
    rlookup (eraseKey row k) k' = rlookup row k' := by
  induction row with
  | nil => rfl
  | cons e rest ih =>
      obtain ⟨a, b⟩ := e
      by_cases he : a = k
      · have hne : ¬ a = k' := fun hc => h (hc ▸ he ▸ rfl)
        have hstep : eraseKey ((a, b) :: rest) k = eraseKey rest k := by
          simp [eraseKey, List.filter_cons, he]
        rw [hstep, ih]
        simp [rlookup, hne]
      · have hstep : eraseKey ((a, b) :: rest) k = (a, b) :: eraseKey rest k := by
          simp [eraseKey, List.filter_cons, he]
        rw [hstep]
        by_cases he' : a = k'
        · simp [rlookup, he']
        · simp [rlookup, he', ih]

theorem rget_eraseKey (row : Row) (k : String) (h : rlookup row k = some "") :
    rget (eraseKey row k) = rget row := by
  funext k'
  by_cases hk : k' = k
  · subst hk
    unfold rget
    rw [h, rlookup_eraseKey_self]
    rfl
  · unfold rget
    rw [rlookup_eraseKey_ne row k k' hk]

theorem enrichCatalog_cons (r : Row) (rs : List Row) (ps : List ListingPlatform) :
    enrichCatalog (r :: rs) ps =
      ps.map (fun p => spreadMerge r (generateListing r p)) ++ enrichCatalog rs ps := by
  simp [enrichCatalog]

theorem enrichCatalog_length (rows : List Row) (ps : List ListingPlatform) :
    (enrichCatalog rows ps).length = rows.length * ps.length := by
  induction rows with
  | nil => simp [enrichCatalog]
  | cons r rs ih =>
      rw [enrichCatalog_cons, List.length_append, List.length_map, ih,
        List.length_cons, Nat.succ_mul, Nat.add_comm]

theorem enrichCatalog_getElem? (rows : List Row) (ps : List ListingPlatform)
    (i j : Nat) (r : Row) (p : ListingPlatform)
    (hr : rows[i]? = some r) (hp : ps[j]? = some p) :
    (enrichCatalog rows ps)[i * ps.length + j]? =
      some (spreadMerge r (generateListing r p)) := by
  induction rows generalizing i with
  | nil => simp at hr
  | cons row rs ih =>
      cases i with
      | zero =>
          have hrow : row = r := by simpa using hr
          subst hrow
          rcases List.getElem?_eq_some.mp hp with ⟨hj, hpj⟩
          rw [enrichCatalog_cons, Nat.zero_mul, Nat.zero_add, List.getElem?_append]
          simp [List.length_map, hj, List.getElem?_map, hp, hpj]
      | succ i =>
          have hr' : rs[i]? = some r := by simpa using hr
          have hidx : (i + 1) * ps.length + j = ps.length + (i * ps.length + j) := by
            ring
          rw [enrichCatalog_cons, hidx, List.getElem?_append]
          simp only [List.length_map]
          rw [if_neg (by omega), Nat.add_sub_cancel_left]
          exact ih i hr'

/-! ## Claim theorems -/

/-- C1: `enrichCatalog` returns exactly `rows.length * platforms.length`
merged records; the result is empty when either input is empty; and the
record at flat index `i * platforms.length + j` is the merge of row `i`
with its listing for platform `j` — so each row's platform-expansions are
contiguous, in row order then supplied platform order. -/
theorem enrichCatalog_cross_product (rows : List Row) (ps : List ListingPlatform) :
    (enrichCatalog rows ps).length = rows.length * ps.length ∧
    enrichCatalog ([] : List Row) ps = [] ∧
    enrichCatalog rows ([] : List ListingPlatform) = [] ∧
    ∀ i j r p, rows[i]? = some r → ps[j]? = some p →
      (enrichCatalog rows ps)[i * ps.length + j]? =
        some (spreadMerge r (generateListing r p)) := by
  refine ⟨enrichCatalog_length rows ps, by simp [enrichCatalog], by simp [enrichCatalog], ?_⟩
  intro i j r p hr hp
  exact enrichCatalog_getElem? rows ps i j r p hr hp

/-- Witness for C1: one row and two platforms give two records, and the
record at flat index `0 * 2 + 1` is the Meesho expansion of the row. -/
theorem enrichCatalog_cross_product_witness :
    (enrichCatalog [[("brand", "X")]] [.Amazon, .Meesho]).length =
      [[("brand", "X")]].length * [ListingPlatform.Amazon, .Meesho].length ∧
    (enrichCatalog [[("brand", "X")]] [.Amazon, .Meesho])[0 *
        [ListingPlatform.Amazon, .Meesho].length + 1]? =
      some (spreadMerge [("brand", "X")]
        (generateListing [("brand", "X")] .Meesho)) :=
  ⟨(enrichCatalog_cross_product _ _).1,
   (enrichCatalog_cross_product _ _).2.2.2 0 1 _ _ rfl rfl⟩

/-- C2: `generateListing` is a total function — on every row (the empty row
included) and every platform it returns a record whose eight fields are all
present strings (the `Platform` field carrying the requested platform);
absence of data degrades to defaults, never to a missing field or a raised
error (totality is by construction of the embedding, which mirrors the
source's unconditional field assignments). -/
theorem generateListing_total (row : Row) (platform : ListingPlatform) :
    ∃ t bp d sk pr sku hsn : String,
      generateListing row platform =
        { Platform := platform, Title := t, BulletPoints := bp, Description := d,
          SearchKeywords := sk, Price := pr, SKU := sku, HSN := hsn } :=
  ⟨_, _, _, _, _, _, _, rfl⟩

/-- C3 counterexample: the source filters the four Amazon title parts by
truthiness BEFORE trimming them, so the whitespace-only part `size = " "`
survives the filter, is trimmed to `""`, and contributes an empty trailing
join segment — the output is `"Premium | Product | "`, not the
`"Premium | Product"` that trim-first-then-filter (claim C3's order,
`amazonTitleSpecC3`) would give. -/
theorem amazon_title_trim_order_counterexample :
    titleTemplates .Amazon (rget [("size", " ")]) = "Premium | Product | " ∧
    amazonTitleSpecC3 (rget [("size", " ")]) = "Premium | Product" ∧
    titleTemplates .Amazon (rget [("size", " ")]) ≠
      amazonTitleSpecC3 (rget [("size", " ")]) := by
  refine ⟨by decide, by decide, by decide⟩

/-- C3 amended: the Amazon title is built from the four alias-chain parts
(brand / name / key trait / size with the claimed chains and defaults),
where the parts that are non-empty BEFORE trimming are kept, each kept part
is then trimmed, the results are joined with " | " in that fixed order, and
the join is truncated to 180 characters — so a whitespace-only part
contributes an empty join segment rather than nothing. -/
theorem amazon_title_structure (row : Getter) :
    titleTemplates .Amazon row = amazonTitleSpecC3Amended row := by
  unfold titleTemplates amazonTitleJoined amazonTitleSpecC3Amended
  rw [firstNonEmpty_eq_foldr, firstNonEmpty_eq_foldr, firstNonEmpty_eq_foldr,
    firstNonEmpty_eq_foldr]
  rfl

/-- C4: every computed title respects its platform's hard character ceiling
(Amazon 180, Flipkart 100, Meesho 120, Myntra 80), applied to the final
composed string; and whenever the untruncated Amazon join exceeds 180
characters, the output title is exactly 180 characters and a strict prefix
of the untruncated join. -/
theorem title_truncation (row : Getter) :
    (∀ platform, (titleTemplates platform row).length ≤ titleLimit platform) ∧
    ((amazonTitleJoined row).length > 180 →
      (titleTemplates .Amazon row).length = 180 ∧
      (titleTemplates .Amazon row).data <+: (amazonTitleJoined row).data ∧
      titleTemplates .Amazon row ≠ amazonTitleJoined row) := by
  constructor
  · intro platform
    cases platform <;> exact jsSlice_length_le _ _
  · intro h
    refine ⟨?_, ?_, ?_⟩
    · show (jsSlice (amazonTitleJoined row) 180).length = 180
      rw [jsSlice_length]
      omega
    · exact ⟨(amazonTitleJoined row).data.drop 180,
        List.take_append_drop 180 (amazonTitleJoined row).data⟩
    · intro he
      have hlen : (jsSlice (amazonTitleJoined row) 180).length =
          (amazonTitleJoined row).length := congrArg String.length he
      rw [jsSlice_length] at hlen
      omega

set_option maxRecDepth 8192 in
/-- Witness for C4: a 200-character product name makes the untruncated
Amazon join longer than 180 characters, and the output title is then
exactly 180 characters. -/
theorem title_truncation_witness :
    (amazonTitleJoined
        (rget [("product_name", String.mk (List.replicate 200 'a'))])).length > 180 ∧
    (titleTemplates .Amazon
        (rget [("product_name", String.mk (List.replicate 200 'a'))])).length = 180 :=
  ⟨by decide, ((title_truncation _).2 (by decide)).1⟩

/-- C5: a key bound to the empty string is indistinguishable from an absent
key — removing such a key from the row leaves `generateListing` unchanged
on every platform, because every template reads the row only through
falsy-collapsing property access. -/
theorem generateListing_empty_eq_absent (row : Row) (k : String)
    (platform : ListingPlatform) (h : rlookup row k = some "") :
    generateListing (eraseKey row k) platform = generateListing row platform := by
  unfold generateListing
  rw [rget_eraseKey row k h]

/-- Witness for C5: dropping the empty-valued `size` column leaves the
Amazon listing unchanged. -/
theorem generateListing_empty_eq_absent_witness :
    rlookup [("size", "")] "size" = some "" ∧
    generateListing (eraseKey [("size", "")] "size") .Amazon =
      generateListing [("size", "")] .Amazon :=
  ⟨rfl, generateListing_empty_eq_absent [("size", "")] "size" .Amazon rfl⟩

/-- C6: the empty row on Meesho yields exactly the three default bullets
and the title "Trendy Look - Best Seller". -/
theorem meesho_empty_row_defaults :
    bulletTemplates .Meesho (rget ([] : Row)) =
      ["Trusted quality", "Curated for your boutique", "Ships fast"] ∧
    titleTemplates .Meesho (rget ([] : Row)) = "Trendy Look - Best Seller" := by
  refine ⟨by decide, by decide⟩

/-- C7: in every merged record produced by `enrichCatalog`, a key outside
the eight computed field names resolves to the original row's value, and
each of the eight computed names resolves to the computed listing value
even when the row carries a column of the same name (the listing spread
wins). The source row is never mutated: `spreadMerge` builds a new list and
the embedding is pure by construction. -/
theorem spreadMerge_fields (row : Row) (platform : ListingPlatform) (k : String) :
    (k ∉ computedNames →
      rlookup (spreadMerge row (generateListing row platform)) k = rlookup row k) ∧
    rlookup (spreadMerge row (generateListing row platform)) "Platform" =
      some (platformName platform) ∧
    rlookup (spreadMerge row (generateListing row platform)) "Title" =
      some (generateListing row platform).Title ∧
    rlookup (spreadMerge row (generateListing row platform)) "BulletPoints" =
      some (generateListing row platform).BulletPoints ∧
    rlookup (spreadMerge row (generateListing row platform)) "Description" =
      some (generateListing row platform).Description ∧
    rlookup (spreadMerge row (generateListing row platform)) "SearchKeywords" =
      some (generateListing row platform).SearchKeywords ∧
    rlookup (spreadMerge row (generateListing row platform)) "Price" =
      some (generateListing row platform).Price ∧
    rlookup (spreadMerge row (generateListing row platform)) "SKU" =
      some (generateListing row platform).SKU ∧
    rlookup (spreadMerge row (generateListing row platform)) "HSN" =
      some (generateListing row platform).HSN := by
  refine ⟨fun h => ?_, ?_, ?_, ?_, ?_, ?_, ?_, ?_, ?_⟩
  · simp [computedNames] at h
    obtain ⟨h1, h2, h3, h4, h5, h6, h7, h8⟩ := h
    simp [spreadMerge, listingPairs, rlookup, Ne.symm h1, Ne.symm h2, Ne.symm h3,
      Ne.symm h4, Ne.symm h5, Ne.symm h6, Ne.symm h7, Ne.symm h8]
  all_goals
    simp [spreadMerge, listingPairs, rlookup, generateListing, generateListingF]

/-- Witness for C7: in a merged record, the passthrough column `color`
keeps its original value while the colliding original `Title` column is
overridden by the computed title. -/
theorem spreadMerge_fields_witness :
    rlookup (spreadMerge [("color", "Red"), ("Title", "orig")]
        (generateListing [("color", "Red"), ("Title", "orig")] .Amazon)) "color" =
      rlookup [("color", "Red"), ("Title", "orig")] "color" ∧
    rlookup (spreadMerge [("color", "Red"), ("Title", "orig")]
        (generateListing [("color", "Red"), ("Title", "orig")] .Amazon)) "Title" =
      some (generateListing [("color", "Red"), ("Title", "orig")] .Amazon).Title :=
  ⟨(spreadMerge_fields [("color", "Red"), ("Title", "orig")] .Amazon "color").1
      (by decide),
   (spreadMerge_fields [("color", "Red"), ("Title", "orig")] .Amazon "color").2.2.1⟩

/-- C8: the Meesho description is the margin-clause sentence exactly when
`margin` or `wholesale_price` is present and non-empty, and otherwise the
variant with the double-space artifact, byte for byte. -/
theorem meesho_description_margin (row : Row) :
    (jsOr (rget row "margin") (rget row "wholesale_price") ≠ "" →
      (generateListing row .Meesho).Description =
        "Perfect addition for boutique sellers. Optimised margins for resellers. Lightweight packaging for reduced logistics cost.") ∧
    (jsOr (rget row "margin") (rget row "wholesale_price") = "" →
      (generateListing row .Meesho).Description =
        "Perfect addition for boutique sellers.  Lightweight packaging for reduced logistics cost.") := by
  constructor
  · intro h
    simp only [generateListing, generateListingF, descriptionTemplates]
    rw [if_pos (by simpa using h)]
    decide
  · intro h
    simp only [generateListing, generateListingF, descriptionTemplates]
    rw [if_neg (by simpa using h)]
    decide

/-- Witness for C8: a row with `margin` present gets the margin clause; the
empty row gets the double-space variant. -/
theorem meesho_description_margin_witness :
    (generateListing [("margin", "30")] .Meesho).Description =
      "Perfect addition for boutique sellers. Optimised margins for resellers. Lightweight packaging for reduced logistics cost." ∧
    (generateListing ([] : Row) .Meesho).Description =
      "Perfect addition for boutique sellers.  Lightweight packaging for reduced logistics cost." :=
  ⟨(meesho_description_margin [("margin", "30")]).1 (by decide),
   (meesho_description_margin ([] : Row)).2 (by decide)⟩

/-- C9: Amazon keyword derivation does not deduplicate — on the row
`{keywords: "red,red", category: "red"}` the keyword sequence is
`["red", "red", "red"]` ("red" exactly three times, in order) and the
joined `SearchKeywords` string is `"red, red, red"`. -/
theorem amazon_keywords_no_dedup :
    keywordTemplates .Amazon (rget [("keywords", "red,red"), ("category", "red")]) =
      ["red", "red", "red"] ∧
    (keywordTemplates .Amazon
      (rget [("keywords", "red,red"), ("category", "red")])).count "red" = 3 ∧
    (generateListing [("keywords", "red,red"), ("category", "red")] .Amazon).SearchKeywords =
      "red, red, red" := by
  refine ⟨by decide, by decide, by decide⟩

/-- C10: the Meesho default bullets appear only when the resolved highlight
value is exactly empty — a whitespace-only highlight survives the emptiness
test, splits to fragments that all trim away, and yields an empty bullet
list and an empty `BulletPoints` string instead of the defaults. -/
theorem meesho_bullets_whitespace_highlight :
    bulletTemplates .Meesho (rget [("highlight", " ")]) = [] ∧
    (generateListing [("highlight", " ")] .Meesho).BulletPoints = "" ∧
    bulletTemplates .Meesho (rget [("highlight", " ")]) ≠
      ["Trusted quality", "Curated for your boutique", "Ships fast"] := by
  refine ⟨by decide, by decide, by decide⟩

end Catalog
